import Mathlib

/-!
Shallow embedding of the fastapi_ecommerce catalog/review subsystem
(`app/routers/products.py`, `app/routers/reviews.py`, `app/models/reviews.py`).

The entity store is modelled as lists of rows.  An SQLAlchemy
`select(Model).where(cond).first()` becomes `List.filter` followed by
`List.head?`; an `update(Model).where(cond).values(...)` becomes a guarded
`List.map`; `db.get(Model, pk)` becomes `List.find?` on the primary key; a
raised `HTTPException` becomes `Except.error`.  Row ids act as primary keys.
-/

namespace Ecommerce

/-- Modelled from the spec: `app/models/users.py` is not under `src/`.
Spec section 3: a User has a `role` that is one of buyer, seller, admin. -/
inductive Role where
  | buyer
  | seller
  | admin
deriving DecidableEq, Repr

/-- Modelled from the spec: `app/models/users.py` is not under `src/`.
Spec section 3: a User is an identity with a role; it is the ownership anchor
for products (via `seller_id`) and reviews (via `user_id`). -/
structure User where
  id : Nat
  role : Role
deriving DecidableEq, Repr

/-- Modelled from the spec: `app/models/categories.py` is not under `src/`.
Spec section 3: a Category has `id` and an `is_active` flag. -/
structure Category where
  id : Nat
  is_active : Bool
deriving DecidableEq, Repr

/-- Modelled from the spec: `app/models/products.py` is not under `src/`.
Spec section 3: a Product has `id`, `category_id`, `seller_id`, `price`,
`stock`, derived `rating` (default 0.0) and an `is_active` flag; section 6
adds name/description catalog fields. -/
structure Product where
  id : Nat
  name : String
  description : String
  price : Rat
  stock : Nat
  category_id : Nat
  seller_id : Nat
  rating : Rat
  is_active : Bool
deriving DecidableEq, Repr

/-- From `app/models/reviews.py`: id, user_id, product_id, optional comment,
integer grade, is_active (default true).  `comment_date` is omitted: it is
only used to order one read-only listing that no claim concerns. -/
structure Review where
  id : Nat
  user_id : Nat
  product_id : Nat
  comment : Option String
  grade : Int
  is_active : Bool
deriving DecidableEq, Repr

/-- The entity store: one table per model class. -/
structure DB where
  users : List User
  categories : List Category
  products : List Product
  reviews : List Review
deriving DecidableEq, Repr

/-- The fastapi HTTPException: a status code and a detail string. -/
structure HTTPException where
  status_code : Nat
  detail : String
deriving DecidableEq, Repr

/-- Embeds `select(CategoryModel).where(id == cid, is_active == True)` + `.first()`. -/
def firstActiveCategory (db : DB) (cid : Nat) : Option Category :=
  (db.categories.filter (fun c => c.id == cid && c.is_active)).head?

/-- Embeds `select(ProductModel).where(id == pid, is_active == True)` + `.first()`. -/
def firstActiveProduct (db : DB) (pid : Nat) : Option Product :=
  (db.products.filter (fun p => p.id == pid && p.is_active)).head?

/-- Embeds `select(ReviewModel).where(id == rid, is_active == True)` + `.first()`. -/
def firstActiveReview (db : DB) (rid : Nat) : Option Review :=
  (db.reviews.filter (fun r => r.id == rid && r.is_active)).head?

/-- Embeds `db.get(ProductModel, pid)`: primary-key lookup, ignoring `is_active`. -/
def getProductByPk (db : DB) (pid : Nat) : Option Product :=
  db.products.find? (fun p => p.id == pid)

/-- The `select(func.avg(ReviewModel.grade)).where(product_id == pid,
is_active == True)` scalar in `update_product_rating`: SQL `AVG` is the sum
divided by the row count, and `NULL` (here `none`) on an empty set. -/
def avgActiveGrade (db : DB) (pid : Nat) : Option Rat :=
  let grades := (db.reviews.filter (fun r => r.product_id == pid && r.is_active)).map Review.grade
  if grades.isEmpty then none
  else some ((grades.sum : Rat) / (grades.length : Rat))

/-- Embedding of `update_product_rating` from `app/routers/reviews.py`: reads the average
grade (`scalar() or 0.0` maps the SQL NULL of an empty set to 0.0; a numeric
0 is unchanged by `or 0.0`), fetches the product by primary key and writes the
average onto its `rating`, committing.  `none` models the AttributeError when
no product row with that primary key exists. -/
def update_product_rating (db : DB) (product_id : Nat) : Option DB :=
  let avg_rating : Rat := (avgActiveGrade db product_id).getD 0
  match getProductByPk db product_id with
  | none => none
  | some _ =>
      some { db with
             products := db.products.map (fun p =>
               if p.id == product_id then { p with rating := avg_rating } else p) }

/-- Modelled from the spec: `app/schemas.py` is not under `src/`.
Spec section 6: the POST /reviews body is product_id, grade, comment. -/
structure ReviewCreate where
  product_id : Nat
  grade : Int
  comment : Option String
deriving DecidableEq, Repr

/-- Embedding of `create_review` from `app/routers/reviews.py`: resolve the active product
(else 400), insert the review stamped with the caller id and commit, then run
`update_product_rating` (which commits again).  `new_id` is the id the store
assigns to the inserted row. -/
def create_review (db : DB) (current_user : User) (review : ReviewCreate)
    (new_id : Nat) : Except HTTPException (DB × Review) :=
  match firstActiveProduct db review.product_id with
  | none => .error ⟨400, "Product not found"⟩
  | some product =>
      let db_review : Review :=
        { id := new_id, user_id := current_user.id, product_id := review.product_id,
          comment := review.comment, grade := review.grade, is_active := true }
      let db1 : DB := { db with reviews := db.reviews ++ [db_review] }
      match update_product_rating db1 product.id with
      | none => .error ⟨500, "Internal Server Error"⟩
      | some db2 => .ok (db2, db_review)

/-- The durable states committed by `create_review`, in commit order: the
handler runs `db.commit()` right after inserting the review, and
`update_product_rating` then issues its own, second `db.commit()` for the
rating write.  Each list element is a state the store persists. -/
def create_review_commits (db : DB) (current_user : User) (review : ReviewCreate)
    (new_id : Nat) : List DB :=
  match firstActiveProduct db review.product_id with
  | none => []
  | some product =>
      let db_review : Review :=
        { id := new_id, user_id := current_user.id, product_id := review.product_id,
          comment := review.comment, grade := review.grade, is_active := true }
      let db1 : DB := { db with reviews := db.reviews ++ [db_review] }
      match update_product_rating db1 product.id with
      | none => [db1]
      | some db2 => [db1, db2]

/-- Embedding of `delete_review` from `app/routers/reviews.py`: resolve the active review
(else 404), flip `is_active` to false and commit, then run
`update_product_rating` for the product of that review (second commit); `refresh`
returns the flipped row. -/
def delete_review (db : DB) (current_user : User) (review_id : Nat) :
    Except HTTPException (DB × Review) :=
  match firstActiveReview db review_id with
  | none => .error ⟨404, "Review not found"⟩
  | some review =>
      let db1 : DB := { db with reviews := db.reviews.map (fun r =>
          if r.id == review_id then { r with is_active := false } else r) }
      match update_product_rating db1 review.product_id with
      | none => .error ⟨500, "Internal Server Error"⟩
      | some db2 => .ok (db2, { review with is_active := false })

/-- The durable states committed by `delete_review`, in commit order
(soft-delete commit, then the rating commit of `update_product_rating`). -/
def delete_review_commits (db : DB) (current_user : User) (review_id : Nat) :
    List DB :=
  match firstActiveReview db review_id with
  | none => []
  | some review =>
      let db1 : DB := { db with reviews := db.reviews.map (fun r =>
          if r.id == review_id then { r with is_active := false } else r) }
      match update_product_rating db1 review.product_id with
      | none => [db1]
      | some db2 => [db1, db2]

/-- Spec section 3, invariant 1: the arithmetic mean of `grade` over all
reviews with the given `product_id` and `is_active = true`, or 0.0 when no
such active review exists. -/
def specRating (db : DB) (product_id : Nat) : Rat :=
  let grades := (db.reviews.filter (fun r => r.product_id == product_id && r.is_active)).map Review.grade
  if grades.isEmpty then 0
  else (grades.sum : Rat) / (grades.length : Rat)

/-- The pydantic field names of `ProductCreate`. -/
inductive ProductField where
  | name
  | description
  | price
  | stock
  | category_id
deriving DecidableEq, Repr

/-- Modelled from the spec: `app/schemas.py` is not under `src/`.
Spec section 6: the POST /products body carries category_id, price, stock and
name/description fields.  `fields_set` mirrors the pydantic record of which
fields the caller explicitly supplied, consulted by
`model_dump(exclude_unset=True)` (spec section 4.2: apply only the fields
explicitly supplied by the caller). -/
structure ProductCreate where
  name : String
  description : String
  price : Rat
  stock : Nat
  category_id : Nat
  fields_set : List ProductField
deriving DecidableEq, Repr

/-- Applying `update(ProductModel).values(**product.model_dump(exclude_unset
=True))` to one row: only the fields the caller explicitly supplied change. -/
def apply_update (upd : ProductCreate) (p : Product) : Product :=
  { p with
    name := if upd.fields_set.contains ProductField.name then upd.name else p.name
    description := if upd.fields_set.contains ProductField.description then upd.description else p.description
    price := if upd.fields_set.contains ProductField.price then upd.price else p.price
    stock := if upd.fields_set.contains ProductField.stock then upd.stock else p.stock
    category_id := if upd.fields_set.contains ProductField.category_id then upd.category_id else p.category_id }

/-- Embedding of `create_product` from `app/routers/products.py`: resolve the
category named by the payload as active (else 400), then insert
`ProductModel(**product.model_dump(), seller_id=current_user.id)` and commit.
The inserted row takes the store-assigned `new_id` and the column defaults
`is_active = true` and `rating = 0.0` (defaults modelled from the spec:
`app/models/products.py` is not under `src/`; spec section 3 and 4.2). -/
def create_product (db : DB) (current_user : User) (product : ProductCreate)
    (new_id : Nat) : Except HTTPException (DB × Product) :=
  match firstActiveCategory db product.category_id with
  | none => .error ⟨400, "Category not found"⟩
  | some _ =>
      let db_product : Product :=
        { id := new_id, name := product.name, description := product.description,
          price := product.price, stock := product.stock,
          category_id := product.category_id, seller_id := current_user.id,
          rating := 0, is_active := true }
      .ok ({ db with products := db.products ++ [db_product] }, db_product)

/-- Embedding of `get_product` from `app/routers/products.py`: resolve the
active product (else 404), then re-resolve the category of that product as
active (else 400),
then return the product. -/
def get_product (db : DB) (product_id : Nat) : Except HTTPException Product :=
  match firstActiveProduct db product_id with
  | none => .error ⟨404, "Product not found"⟩
  | some db_product =>
      match firstActiveCategory db db_product.category_id with
      | none => .error ⟨400, "Category not found"⟩
      | some _ => .ok db_product

/-- Embedding of `update_product` from `app/routers/products.py`: resolve the
active product (else 404); ownership check (else 403); resolve
`db_product.category_id` — the category currently stored on the row, not the
one supplied in the payload — as active (else 400); then apply the supplied fields to every row
with that id, commit and return the refreshed row. -/
def update_product (db : DB) (current_user : User) (product_id : Nat)
    (product : ProductCreate) : Except HTTPException (DB × Product) :=
  match firstActiveProduct db product_id with
  | none => .error ⟨404, "Product not found"⟩
  | some db_product =>
      if db_product.seller_id ≠ current_user.id then
        .error ⟨403, "You can only update your own products"⟩
      else
        match firstActiveCategory db db_product.category_id with
        | none => .error ⟨400, "Category not found"⟩
        | some _ =>
            let db' : DB := { db with products := db.products.map (fun p =>
                if p.id == product_id then apply_update product p else p) }
            match getProductByPk db' product_id with
            | none => .error ⟨500, "Internal Server Error"⟩
            | some refreshed => .ok (db', refreshed)

/-- Embedding of `delete_product` from `app/routers/products.py`: resolve the active
product (else 404); ownership check (else 403); flip `is_active` to false,
commit and return the refreshed row. -/
def delete_product (db : DB) (current_user : User) (product_id : Nat) :
    Except HTTPException (DB × Product) :=
  match firstActiveProduct db product_id with
  | none => .error ⟨404, "Product not found"⟩
  | some product =>
      if product.seller_id ≠ current_user.id then
        .error ⟨403, "You can only delete your own products"⟩
      else
        let db' : DB := { db with products := db.products.map (fun p =>
            if p.id == product_id then { p with is_active := false } else p) }
        match getProductByPk db' product_id with
        | none => .error ⟨500, "Internal Server Error"⟩
        | some refreshed => .ok (db', refreshed)

/-- Query parameters of `get_all_products`. -/
structure ListParams where
  page : Nat
  page_size : Nat
  category_id : Option Nat
  min_price : Option Rat
  max_price : Option Rat
  in_stock : Option Bool
  seller_id : Option Nat
deriving DecidableEq, Repr

/-- The fastapi `Query` bounds of `get_all_products`: `page` has `ge=1`,
`page_size` has `ge=1, le=100`, `min_price` and `max_price` have `ge=0`. -/
def validQueryParams (q : ListParams) : Bool :=
  decide (1 ≤ q.page) && decide (1 ≤ q.page_size) && decide (q.page_size ≤ 100)
  && (match q.min_price with | none => true | some m => decide (0 ≤ m))
  && (match q.max_price with | none => true | some m => decide (0 ≤ m))

/-- The guard at the top of `get_all_products`: both price bounds supplied
and `min_price > max_price`. -/
def minMaxInvalid (q : ListParams) : Bool :=
  match q.min_price, q.max_price with
  | some mn, some mx => decide (mx < mn)
  | _, _ => false

/-- The `filters` list built by `get_all_products`, as one row predicate:
`is_active == True` always, plus one conjunct per supplied query param
(`in_stock=true` keeps `stock > 0`, `in_stock=false` keeps `stock == 0`). -/
def productFilters (q : ListParams) (p : Product) : Bool :=
  p.is_active
  && (match q.category_id with | none => true | some c => p.category_id == c)
  && (match q.min_price with | none => true | some m => decide (m ≤ p.price))
  && (match q.max_price with | none => true | some m => decide (p.price ≤ m))
  && (match q.in_stock with
      | none => true
      | some b => if b then decide (0 < p.stock) else p.stock == 0)
  && (match q.seller_id with | none => true | some s => p.seller_id == s)

/-- Embeds `ORDER BY ProductModel.id`: a stable sort of the result rows by id. -/
def orderById (l : List Product) : List Product :=
  List.insertionSort (fun a b => a.id ≤ b.id) l

/-- The page envelope returned by `get_all_products`. -/
structure ProductList where
  items : List Product
  total : Nat
  page : Nat
  page_size : Nat
deriving DecidableEq, Repr

/-- The two store queries of `get_all_products`: `total` counts all rows
matching the filters; `items` selects them ordered by id with
`OFFSET (page-1)*page_size LIMIT page_size`. -/
def runProductQuery (db : DB) (q : ListParams) : ProductList :=
  let matching := db.products.filter (productFilters q)
  { items := ((orderById matching).drop ((q.page - 1) * q.page_size)).take q.page_size
    total := matching.length
    page := q.page
    page_size := q.page_size }

/-- Embedding of `get_all_products` from `app/routers/products.py`: reject
`min_price > max_price` with a 400 before issuing any store query, otherwise
run the count and page queries. -/
def get_all_products (db : DB) (q : ListParams) : Except HTTPException ProductList :=
  if minMaxInvalid q then
    .error ⟨400, "min_price не может быть больше max_price"⟩
  else
    .ok (runProductQuery db q)

/-- Modelled from the spec: `app/auth.py` is not under `src/`.  Spec sections
4.4 and 7: the Principal Resolver yields a principal or fails Unauthenticated
(401); the seller dependency used by the product write routes rejects a
principal whose role is not seller with a policy denial (403). -/
def get_current_seller (principal : Option User) : Except HTTPException User :=
  match principal with
  | none => .error ⟨401, "Unauthenticated"⟩
  | some u => if u.role = Role.seller then .ok u else .error ⟨403, "Forbidden"⟩

/-- Route `POST /products`: `create_product` behind `Depends(get_current_seller)`. -/
def create_product_endpoint (db : DB) (principal : Option User)
    (product : ProductCreate) (new_id : Nat) : Except HTTPException (DB × Product) :=
  match get_current_seller principal with
  | .error e => .error e
  | .ok current_user => create_product db current_user product new_id

/-- Route `PUT /products/(product_id)`: `update_product` behind
`Depends(get_current_seller)`. -/
def update_product_endpoint (db : DB) (principal : Option User)
    (product_id : Nat) (product : ProductCreate) : Except HTTPException (DB × Product) :=
  match get_current_seller principal with
  | .error e => .error e
  | .ok current_user => update_product db current_user product_id product

/-- Route `DELETE /products/(product_id)`: `delete_product` behind
`Depends(get_current_seller)`. -/
def delete_product_endpoint (db : DB) (principal : Option User)
    (product_id : Nat) : Except HTTPException (DB × Product) :=
  match get_current_seller principal with
  | .error e => .error e
  | .ok current_user => delete_product db current_user product_id

/-- The store state after a handler returns: a raised `HTTPException` in the
product handlers happens before any statement is executed or committed on
that path, so the store keeps its prior state. -/
def finalDB {α : Type} (db : DB) (r : Except HTTPException (DB × α)) : DB :=
  match r with
  | .ok (db', _) => db'
  | .error _ => db

instance : IsTotal Product (fun a b => a.id ≤ b.id) :=
  ⟨fun a b => Nat.le_total a.id b.id⟩

instance : IsTrans Product (fun a b => a.id ≤ b.id) :=
  ⟨fun _ _ _ h1 h2 => Nat.le_trans h1 h2⟩

/-! Concrete store states used by witnesses and counterexamples. -/

/-- A buyer principal. -/
def buyer2 : User := ⟨2, Role.buyer⟩

/-- The seller who owns the example product. -/
def seller7 : User := ⟨7, Role.seller⟩

/-- A different seller, not the owner. -/
def seller8 : User := ⟨8, Role.seller⟩

/-- Users of the example store. -/
def exUsers : List User := [buyer2, seller7, seller8, ⟨9, Role.admin⟩]

/-- Category 1 is active, category 2 is soft-deleted. -/
def exCategories : List Category := [⟨1, true⟩, ⟨2, false⟩]

/-- An active product of seller 7 in the active category 1, no rating yet. -/
def exProduct : Product :=
  { id := 1, name := "phone", description := "a phone", price := 100, stock := 5,
    category_id := 1, seller_id := 7, rating := 0, is_active := true }

/-- The base example store: one active product, no reviews. -/
def exDB : DB :=
  { users := exUsers, categories := exCategories, products := [exProduct], reviews := [] }

/-- A review payload: grade 4 on product 1. -/
def exReviewCreate : ReviewCreate := { product_id := 1, grade := 4, comment := none }

/-- The review row inserted for `exReviewCreate` by buyer 2 with id 10. -/
def exReview : Review :=
  { id := 10, user_id := 2, product_id := 1, comment := none, grade := 4, is_active := true }

/-- The store after the first commit of `create_review`: the review is
durable but the product still carries the pre-mutation rating 0. -/
def dbMidCommit : DB := { exDB with reviews := [exReview] }

/-- The store after `create_review` completes: review durable, rating 4. -/
def dbAfterReview : DB :=
  { exDB with products := [{ exProduct with rating := 4 }], reviews := [exReview] }

/-- An update payload that only supplies `category_id`, changing it to the
soft-deleted category 2. -/
def catChangePayload : ProductCreate :=
  { name := "phone", description := "a phone", price := 100, stock := 5,
    category_id := 2, fields_set := [ProductField.category_id] }

/-- The store after `update_product` applies `catChangePayload`. -/
def dbAfterCatChange : DB :=
  { exDB with products := [{ exProduct with category_id := 2 }] }

/-- An active product whose category (2) is soft-deleted. -/
def orphanProduct : Product := { exProduct with id := 3, category_id := 2 }

/-- A store holding only `orphanProduct`. -/
def orphanDB : DB := { exDB with products := [orphanProduct] }

/-- The soft-deleted copy of the example product. -/
def inactiveProduct : Product := { exProduct with is_active := false }

/-- A soft-deleted review on product 1. -/
def inactiveReview : Review :=
  { id := 5, user_id := 2, product_id := 1, comment := none, grade := 3, is_active := false }

/-- A store whose product 1 and review 5 are already soft-deleted. -/
def softDeletedDB : DB :=
  { exDB with products := [inactiveProduct], reviews := [inactiveReview] }

/-- A full product payload against the active category 1. -/
def goodPayload : ProductCreate :=
  { name := "tv", description := "a tv", price := 50, stock := 2, category_id := 1,
    fields_set := [ProductField.name, ProductField.description, ProductField.price,
                   ProductField.stock, ProductField.category_id] }

/-- The same payload pointed at the soft-deleted category 2. -/
def badCategoryPayload : ProductCreate := { goodPayload with category_id := 2 }

/-- The row `create_product` inserts for `goodPayload` by seller 7, id 20. -/
def createdProduct : Product :=
  { id := 20, name := "tv", description := "a tv", price := 50, stock := 2,
    category_id := 1, seller_id := 7, rating := 0, is_active := true }

/-- The store after that successful `create_product`. -/
def dbWithCreated : DB := { exDB with products := [exProduct, createdProduct] }

/-- An update payload whose only supplied field is `price`. -/
def priceOnlyPayload : ProductCreate :=
  { name := "x", description := "y", price := 150, stock := 9, category_id := 3,
    fields_set := [ProductField.price] }

/-- The store after `update_product` applies `priceOnlyPayload`. -/
def dbAfterPriceChange : DB :=
  { exDB with products := [{ exProduct with price := 150 }] }

/-- List query with `min_price=50, max_price=10`. -/
def badPriceParams : ListParams :=
  { page := 1, page_size := 20, category_id := none, min_price := some 50,
    max_price := some 10, in_stock := none, seller_id := none }

/-- An empty store, to witness that a rejected listing never consults it. -/
def emptyDB : DB := { users := [], categories := [], products := [], reviews := [] }

/-- The i-th of five identical active catalog rows. -/
def pageProduct (i : Nat) : Product :=
  { id := i, name := "p", description := "d", price := 10, stock := 1,
    category_id := 1, seller_id := 7, rating := 0, is_active := true }

/-- Five matching active products plus one soft-deleted row. -/
def paginationDB : DB :=
  { users := exUsers, categories := exCategories,
    products := [pageProduct 1, pageProduct 2, pageProduct 3, pageProduct 4,
                 pageProduct 5, { pageProduct 6 with is_active := false }],
    reviews := [] }

/-- Page 2 of size 2, no filters. -/
def pageTwoParams : ListParams :=
  { page := 2, page_size := 2, category_id := none, min_price := none,
    max_price := none, in_stock := none, seller_id := none }

/-! Helper lemmas shared by the claim theorems. -/

theorem head?_filter_spec {α : Type} (l : List α) (f : α → Bool) (x : α)
    (h : (l.filter f).head? = some x) : x ∈ l ∧ f x = true := by
  have hx : x ∈ l.filter f := by
    cases hl : l.filter f with
    | nil => rw [hl] at h; cases h
    | cons a t =>
        rw [hl] at h
        injection h with h
        rw [← h]
        exact List.mem_cons_self a t
  exact ⟨(List.mem_filter.mp hx).1, (List.mem_filter.mp hx).2⟩

theorem specRating_congr (db db' : DB) (pid : Nat) (h : db'.reviews = db.reviews) :
    specRating db' pid = specRating db pid := by
  unfold specRating
  rw [h]

theorem avgActiveGrade_getD (db : DB) (pid : Nat) :
    (avgActiveGrade db pid).getD 0 = specRating db pid := by
  unfold avgActiveGrade specRating
  by_cases h :
      ((db.reviews.filter (fun r => r.product_id == pid && r.is_active)).map Review.grade).isEmpty
  · simp [h]
  · simp [h]

theorem update_product_rating_ok (db db' : DB) (pid : Nat)
    (h : update_product_rating db pid = some db') :
    db'.users = db.users ∧ db'.categories = db.categories ∧ db'.reviews = db.reviews ∧
    ∀ p ∈ db'.products, p.id = pid → p.rating = specRating db pid := by
  unfold update_product_rating at h
  cases hpk : getProductByPk db pid with
  | none => rw [hpk] at h; cases h
  | some p0 =>
      rw [hpk] at h
      injection h with h
      subst h
      refine ⟨rfl, rfl, rfl, ?_⟩
      intro p hp hid
      rcases List.mem_map.mp hp with ⟨q, hq, hfq⟩
      by_cases hqid : q.id = pid
      · rw [← hfq]
        simp [hqid, avgActiveGrade_getD]
      · rw [← hfq] at hid
        simp [hqid] at hid

/-! Claim theorems. -/

/-- C7: when both `min_price` and `max_price` are supplied and
`min_price > max_price`, `get_all_products` fails with the 400 validation
error before any store query is issued — its result does not depend on the
store at all. -/
theorem list_products_min_max_validation (db db2 : DB) (q : ListParams) (mn mx : Rat)
    (hmn : q.min_price = some mn) (hmx : q.max_price = some mx) (hgt : mx < mn) :
    get_all_products db q = .error ⟨400, "min_price не может быть больше max_price"⟩ ∧
    get_all_products db q = get_all_products db2 q := by
  have hbad : minMaxInvalid q = true := by
    unfold minMaxInvalid
    rw [hmn, hmx]
    simpa using hgt
  exact ⟨by simp [get_all_products, hbad], by simp [get_all_products, hbad]⟩

/-- Witness for C7: `min_price=50, max_price=10` is rejected with 400 and the
result is the same over the example store and the empty store. -/
theorem list_products_min_max_validation_witness :
    get_all_products exDB badPriceParams = .error ⟨400, "min_price не может быть больше max_price"⟩ ∧
    get_all_products exDB badPriceParams = get_all_products emptyDB badPriceParams :=
  list_products_min_max_validation exDB emptyDB badPriceParams 50 10 rfl rfl (by norm_num)

/-- C8: for valid pagination and filters, `get_all_products` returns the
page envelope: `total` counts all matching active rows, `items` is the
id-ordered list of matching rows skipping (page-1)*page_size and taking at
most page_size, and every item is an active row satisfying each supplied
filter (`in_stock=true` means stock > 0, `in_stock=false` means stock = 0). -/
theorem list_products_envelope (db : DB) (q : ListParams)
    (_hpage : 1 ≤ q.page) (_hsize1 : 1 ≤ q.page_size) (_hsize2 : q.page_size ≤ 100)
    (hmm : minMaxInvalid q = false) :
    get_all_products db q = .ok (runProductQuery db q) ∧
    (runProductQuery db q).total = (db.products.filter (productFilters q)).length ∧
    (runProductQuery db q).items =
      ((orderById (db.products.filter (productFilters q))).drop
        ((q.page - 1) * q.page_size)).take q.page_size ∧
    (runProductQuery db q).page = q.page ∧
    (runProductQuery db q).page_size = q.page_size ∧
    (runProductQuery db q).items.length ≤ q.page_size ∧
    (runProductQuery db q).items.Sorted (fun a b => a.id ≤ b.id) ∧
    ∀ p ∈ (runProductQuery db q).items, p.is_active = true ∧
      (q.in_stock = some true → 0 < p.stock) ∧
      (q.in_stock = some false → p.stock = 0) ∧
      (∀ c, q.category_id = some c → p.category_id = c) ∧
      (∀ m, q.min_price = some m → m ≤ p.price) ∧
      (∀ m, q.max_price = some m → p.price ≤ m) ∧
      (∀ s, q.seller_id = some s → p.seller_id = s) := by
  refine ⟨by simp [get_all_products, hmm], rfl, rfl, rfl, rfl, ?_, ?_, ?_⟩
  · exact List.length_take_le _ _
  · have hs : (orderById (db.products.filter (productFilters q))).Sorted
        (fun a b => a.id ≤ b.id) := List.sorted_insertionSort _ _
    exact List.Pairwise.sublist
      ((List.take_sublist _ _).trans (List.drop_sublist _ _)) hs
  · intro p hp
    have hp1 : p ∈ orderById (db.products.filter (productFilters q)) :=
      List.mem_of_mem_drop (List.mem_of_mem_take hp)
    have hp2 : p ∈ db.products.filter (productFilters q) :=
      (List.perm_insertionSort _ _).subset hp1
    have hf : productFilters q p = true := (List.mem_filter.mp hp2).2
    simp only [productFilters, Bool.and_eq_true] at hf
    obtain ⟨⟨⟨⟨⟨ha, hc⟩, hmn⟩, hmx⟩, hstock⟩, hsl⟩ := hf
    refine ⟨ha, ?_, ?_, ?_, ?_, ?_, ?_⟩
    · intro hq; rw [hq] at hstock; simpa using hstock
    · intro hq; rw [hq] at hstock; simpa using hstock
    · intro c hq; rw [hq] at hc; simpa using hc
    · intro m hq; rw [hq] at hmn; simpa using hmn
    · intro m hq; rw [hq] at hmx; simpa using hmx
    · intro s hq; rw [hq] at hsl; simpa using hsl

/-- Witness for C8: page 2 of size 2 over the 5 matching active rows of
`paginationDB` yields rows 3 and 4 with total 5. -/
theorem list_products_envelope_witness :
    get_all_products paginationDB pageTwoParams =
      .ok (runProductQuery paginationDB pageTwoParams) ∧
    (runProductQuery paginationDB pageTwoParams).total = 5 ∧
    (runProductQuery paginationDB pageTwoParams).items = [pageProduct 3, pageProduct 4] :=
  ⟨(list_products_envelope paginationDB pageTwoParams (by decide) (by decide)
      (by decide) rfl).1,
   ((list_products_envelope paginationDB pageTwoParams (by decide) (by decide)
      (by decide) rfl).2.1).trans
     (by simp [paginationDB, productFilters, pageProduct, pageTwoParams]),
   ((list_products_envelope paginationDB pageTwoParams (by decide) (by decide)
      (by decide) rfl).2.2.1).trans
     (by simp [paginationDB, productFilters, pageProduct, pageTwoParams, orderById,
         List.insertionSort, List.orderedInsert])⟩

/-- C4 (amended): `get_product` returns the product only when both the
product and its category are active; a missing or inactive product gives
404; an active product whose category is missing or inactive gives 400 — the
category activity is re-validated on every read. -/
theorem get_product_read_cases (db : DB) (pid : Nat) :
    (firstActiveProduct db pid = none →
      get_product db pid = .error ⟨404, "Product not found"⟩) ∧
    (∀ p, firstActiveProduct db pid = some p →
      firstActiveCategory db p.category_id = none →
      get_product db pid = .error ⟨400, "Category not found"⟩) ∧
    (∀ p c, firstActiveProduct db pid = some p →
      firstActiveCategory db p.category_id = some c →
      get_product db pid = .ok p) :=
  ⟨fun h => by simp [get_product, h],
   fun p hp hc => by simp [get_product, hp, hc],
   fun p c hp hc => by simp [get_product, hp, hc]⟩

/-- Witness for the amended C4: a fully active product is returned; a
missing id gives 404. -/
theorem get_product_read_cases_witness :
    get_product exDB 1 = .ok exProduct ∧
    get_product orphanDB 99 = .error ⟨404, "Product not found"⟩ :=
  ⟨(get_product_read_cases exDB 1).2.2 exProduct ⟨1, true⟩
      (by simp [firstActiveProduct, exDB, exProduct])
      (by simp [firstActiveCategory, exDB, exProduct, exCategories]),
   (get_product_read_cases orphanDB 99).1
      (by simp [firstActiveProduct, orphanDB, exDB, orphanProduct, exProduct])⟩

/-- C4 counterexample: product 3 is present and active in `orphanDB`, yet
`get_product` returns a 400 category error — neither the product nor a 404 —
because the category of the product was deactivated after it was written. -/
theorem get_product_inactive_category_counterexample :
    firstActiveProduct orphanDB 3 = some orphanProduct ∧
    orphanProduct.is_active = true ∧
    get_product orphanDB 3 = .error ⟨400, "Category not found"⟩ := by
  refine ⟨?_, rfl, ?_⟩
  · simp [firstActiveProduct, orphanDB, exDB, orphanProduct, exProduct]
  · simp [get_product, firstActiveProduct, firstActiveCategory, orphanDB, exDB,
          orphanProduct, exProduct, exCategories]

/-- C6: a delete_product or delete_review call whose target rows all carry
`is_active = false` returns 404 and commits nothing — a soft-deleted entity
is never soft-deleted a second time with success. -/
theorem delete_already_inactive_not_found (db : DB) (u : User) (pid rid : Nat) :
    ((∃ p ∈ db.products, p.id = pid) →
     (∀ p ∈ db.products, p.id = pid → p.is_active = false) →
       delete_product db u pid = .error ⟨404, "Product not found"⟩ ∧
       finalDB db (delete_product db u pid) = db) ∧
    ((∃ r ∈ db.reviews, r.id = rid) →
     (∀ r ∈ db.reviews, r.id = rid → r.is_active = false) →
       delete_review db u rid = .error ⟨404, "Review not found"⟩ ∧
       delete_review_commits db u rid = []) := by
  constructor
  · intro _hex hall
    have hfp : firstActiveProduct db pid = none := by
      unfold firstActiveProduct
      have hnil : db.products.filter (fun p => p.id == pid && p.is_active) = [] := by
        rw [List.filter_eq_nil_iff]
        intro p hp
        by_cases hid : p.id = pid
        · simp [hid, hall p hp hid]
        · simp [hid]
      rw [hnil]
      rfl
    exact ⟨by simp [delete_product, hfp], by simp [finalDB, delete_product, hfp]⟩
  · intro _hex hall
    have hfr : firstActiveReview db rid = none := by
      unfold firstActiveReview
      have hnil : db.reviews.filter (fun r => r.id == rid && r.is_active) = [] := by
        rw [List.filter_eq_nil_iff]
        intro r hr
        by_cases hid : r.id = rid
        · simp [hid, hall r hr hid]
        · simp [hid]
      rw [hnil]
      rfl
    exact ⟨by simp [delete_review, hfr], by simp [delete_review_commits, hfr]⟩

/-- Witness for C6 on the store whose product 1 and review 5 are already
soft-deleted. -/
theorem delete_already_inactive_not_found_witness :
    (delete_product softDeletedDB seller7 1 = .error ⟨404, "Product not found"⟩ ∧
     finalDB softDeletedDB (delete_product softDeletedDB seller7 1) = softDeletedDB) ∧
    (delete_review softDeletedDB seller7 5 = .error ⟨404, "Review not found"⟩ ∧
     delete_review_commits softDeletedDB seller7 5 = []) :=
  ⟨(delete_already_inactive_not_found softDeletedDB seller7 1 5).1
      ⟨inactiveProduct, by simp [softDeletedDB, exDB], rfl⟩
      (by intro p hp _hid
          simp only [softDeletedDB, exDB] at hp
          simp only [List.mem_singleton] at hp
          simp [hp, inactiveProduct]),
   (delete_already_inactive_not_found softDeletedDB seller7 1 5).2
      ⟨inactiveReview, by simp [softDeletedDB, exDB], rfl⟩
      (by intro r hr _hid
          simp only [softDeletedDB, exDB] at hr
          simp only [List.mem_singleton] at hr
          simp [hr, inactiveReview])⟩

/-- C1: after a completed `create_review` or `delete_review` returning a
review for some product, every stored row of that product carries exactly the
arithmetic mean of `grade` over the active reviews of that product in the
resulting store (0 when none remain). -/
theorem review_mutation_restores_rating (db db' : DB) (u : User) (rc : ReviewCreate)
    (new_id review_id : Nat) (rv : Review)
    (h : create_review db u rc new_id = .ok (db', rv) ∨
         delete_review db u review_id = .ok (db', rv)) :
    ∀ p ∈ db'.products, p.id = rv.product_id → p.rating = specRating db' rv.product_id := by
  rcases h with h | h
  · unfold create_review at h
    cases hfp : firstActiveProduct db rc.product_id with
    | none => rw [hfp] at h; cases h
    | some product =>
        rw [hfp] at h
        simp only at h
        cases hup : update_product_rating
            { db with reviews := db.reviews ++
                [{ id := new_id, user_id := u.id, product_id := rc.product_id,
                   comment := rc.comment, grade := rc.grade, is_active := true }] }
            product.id with
        | none => rw [hup] at h; cases h
        | some db2 =>
            rw [hup] at h
            simp only [Except.ok.injEq, Prod.mk.injEq] at h
            obtain ⟨hdb, hrv⟩ := h
            have hpid : product.id = rc.product_id := by
              have hmem := head?_filter_spec db.products
                  (fun p => p.id == rc.product_id && p.is_active) product
                  (by simpa [firstActiveProduct] using hfp)
              have := hmem.2
              simp only [Bool.and_eq_true, beq_iff_eq] at this
              exact this.1
            obtain ⟨_, _, hrev, hrat⟩ := update_product_rating_ok _ _ _ hup
            subst hdb
            have hrvpid : rv.product_id = rc.product_id := by rw [← hrv]
            intro p hp hid
            have hpi : p.id = product.id := by rw [hid, hrvpid, hpid]
            have hrate := hrat p hp hpi
            rw [hrate, hrvpid, hpid]
            exact (specRating_congr _ _ _ hrev).symm
  · unfold delete_review at h
    cases hfr : firstActiveReview db review_id with
    | none => rw [hfr] at h; cases h
    | some review =>
        rw [hfr] at h
        simp only at h
        cases hup : update_product_rating
            { db with reviews := db.reviews.map (fun r =>
                if r.id == review_id then { r with is_active := false } else r) }
            review.product_id with
        | none => rw [hup] at h; cases h
        | some db2 =>
            rw [hup] at h
            simp only [Except.ok.injEq, Prod.mk.injEq] at h
            obtain ⟨hdb, hrv⟩ := h
            obtain ⟨_, _, hrev, hrat⟩ := update_product_rating_ok _ _ _ hup
            subst hdb
            have hrvpid : rv.product_id = review.product_id := by rw [← hrv]
            intro p hp hid
            have hpi : p.id = review.product_id := by rw [hid, hrvpid]
            have hrate := hrat p hp hpi
            rw [hrate, hrvpid]
            exact (specRating_congr _ _ _ hrev).symm

/-- C2 evidence: `create_review` issues two commits — the review insert is
committed first, then `update_product_rating` commits the rating write — so
the first durable state `dbMidCommit` already holds the active grade-4 review
while product 1 still carries the pre-mutation rating 0, a persisted state in
which the review mutation is durable but the rating is stale. -/
theorem create_review_intermediate_commit_stale :
    create_review_commits exDB buyer2 exReviewCreate 10 = [dbMidCommit, dbAfterReview] ∧
    dbMidCommit.reviews = [exReview] ∧
    exReview.is_active = true ∧
    dbMidCommit.products.map Product.rating = [0] ∧
    specRating dbMidCommit 1 = 4 := by
  refine ⟨?_, rfl, rfl, ?_, ?_⟩
  · norm_num [create_review_commits, firstActiveProduct, update_product_rating,
      getProductByPk, avgActiveGrade, exDB, exProduct, exUsers, exCategories,
      buyer2, exReviewCreate, exReview, dbMidCommit, dbAfterReview]
  · simp [dbMidCommit, exDB, exProduct]
  · norm_num [specRating, dbMidCommit, exDB, exReview]

/-- C3 evidence: no active category with id 2 exists, yet `update_product`
accepts a payload that changes `category_id` to 2 — it validates only the old
stored category 1 — and persists the product referencing the soft-deleted
category. -/
theorem update_product_skips_new_category_check :
    firstActiveCategory exDB 2 = none ∧
    update_product exDB seller7 1 catChangePayload =
      .ok (dbAfterCatChange, { exProduct with category_id := 2 }) ∧
    dbAfterCatChange.products.map Product.category_id = [2] := by
  refine ⟨?_, ?_, by simp [dbAfterCatChange, exDB, exProduct]⟩
  · simp [firstActiveCategory, exDB, exCategories]
  · norm_num [update_product, firstActiveProduct, firstActiveCategory, getProductByPk,
      apply_update, exDB, exProduct, exUsers, exCategories, seller7,
      catChangePayload, dbAfterCatChange]

/-- C5: update_product and delete_product succeed only for a seller principal
that owns the product; a non-owning seller gets the 403 Forbidden error,
which is distinct from the 404 NotFound error, and the store is unchanged. -/
theorem product_mutations_owner_only (db : DB) (principal : Option User)
    (pid : Nat) (pc : ProductCreate) :
    (∀ db' p, update_product_endpoint db principal pid pc = .ok (db', p) →
       ∃ u, principal = some u ∧ u.role = Role.seller ∧
         ∃ t, firstActiveProduct db pid = some t ∧ t.seller_id = u.id) ∧
    (∀ db' p, delete_product_endpoint db principal pid = .ok (db', p) →
       ∃ u, principal = some u ∧ u.role = Role.seller ∧
         ∃ t, firstActiveProduct db pid = some t ∧ t.seller_id = u.id) ∧
    (∀ u t, principal = some u → u.role = Role.seller →
       firstActiveProduct db pid = some t → t.seller_id ≠ u.id →
       update_product_endpoint db principal pid pc =
         .error ⟨403, "You can only update your own products"⟩ ∧
       update_product_endpoint db principal pid pc ≠
         .error ⟨404, "Product not found"⟩ ∧
       finalDB db (update_product_endpoint db principal pid pc) = db) ∧
    (∀ u t, principal = some u → u.role = Role.seller →
       firstActiveProduct db pid = some t → t.seller_id ≠ u.id →
       delete_product_endpoint db principal pid =
         .error ⟨403, "You can only delete your own products"⟩ ∧
       delete_product_endpoint db principal pid ≠
         .error ⟨404, "Product not found"⟩ ∧
       finalDB db (delete_product_endpoint db principal pid) = db) := by
  refine ⟨?_, ?_, ?_, ?_⟩
  · intro db' p h
    unfold update_product_endpoint get_current_seller at h
    cases principal with
    | none => simp at h
    | some u =>
        by_cases hrole : u.role = Role.seller
        · simp only [hrole, if_pos rfl] at h
          refine ⟨u, rfl, hrole, ?_⟩
          unfold update_product at h
          cases hfp : firstActiveProduct db pid with
          | none => rw [hfp] at h; simp at h
          | some t =>
              rw [hfp] at h
              by_cases hown : t.seller_id = u.id
              · exact ⟨t, rfl, hown⟩
              · simp [hown] at h
        · simp [hrole] at h
  · intro db' p h
    unfold delete_product_endpoint get_current_seller at h
    cases principal with
    | none => simp at h
    | some u =>
        by_cases hrole : u.role = Role.seller
        · simp only [hrole, if_pos rfl] at h
          refine ⟨u, rfl, hrole, ?_⟩
          unfold delete_product at h
          cases hfp : firstActiveProduct db pid with
          | none => rw [hfp] at h; simp at h
          | some t =>
              rw [hfp] at h
              by_cases hown : t.seller_id = u.id
              · exact ⟨t, rfl, hown⟩
              · simp [hown] at h
        · simp [hrole] at h
  · intro u t hpr hrole hfp hown
    subst hpr
    have heq : update_product_endpoint db (some u) pid pc =
        .error ⟨403, "You can only update your own products"⟩ := by
      simp [update_product_endpoint, get_current_seller, hrole, update_product, hfp, hown]
    exact ⟨heq, by rw [heq]; simp, by rw [heq]; rfl⟩
  · intro u t hpr hrole hfp hown
    subst hpr
    have heq : delete_product_endpoint db (some u) pid =
        .error ⟨403, "You can only delete your own products"⟩ := by
      simp [delete_product_endpoint, get_current_seller, hrole, delete_product, hfp, hown]
    exact ⟨heq, by rw [heq]; simp, by rw [heq]; rfl⟩

/-- Witness for C5: seller 8 tries to update and delete product 1 owned by
seller 7 and receives 403 both times, with the store unchanged. -/
theorem product_mutations_owner_only_witness :
    update_product_endpoint exDB (some seller8) 1 goodPayload =
      .error ⟨403, "You can only update your own products"⟩ ∧
    delete_product_endpoint exDB (some seller8) 1 =
      .error ⟨403, "You can only delete your own products"⟩ ∧
    finalDB exDB (delete_product_endpoint exDB (some seller8) 1) = exDB :=
  ⟨((product_mutations_owner_only exDB (some seller8) 1 goodPayload).2.2.1 seller8 exProduct
      rfl rfl (by simp [firstActiveProduct, exDB, exProduct]) (by decide)).1,
   ((product_mutations_owner_only exDB (some seller8) 1 goodPayload).2.2.2 seller8 exProduct
      rfl rfl (by simp [firstActiveProduct, exDB, exProduct]) (by decide)).1,
   ((product_mutations_owner_only exDB (some seller8) 1 goodPayload).2.2.2 seller8 exProduct
      rfl rfl (by simp [firstActiveProduct, exDB, exProduct]) (by decide)).2.2⟩

/-- C9: create_product by a seller fails with the 400 referential error and
persists nothing when no active category matches the `category_id` of the
payload; otherwise it appends exactly one product stamped with the id of the
selling principal, `is_active = true` and `rating = 0.0`. -/
theorem create_product_category_gate (db : DB) (u : User) (pc : ProductCreate)
    (new_id : Nat) (_hrole : u.role = Role.seller) :
    ((∀ c ∈ db.categories, c.id = pc.category_id → c.is_active = false) →
       create_product_endpoint db (some u) pc new_id = .error ⟨400, "Category not found"⟩ ∧
       finalDB db (create_product_endpoint db (some u) pc new_id) = db) ∧
    (∀ db' p, create_product_endpoint db (some u) pc new_id = .ok (db', p) →
       db'.products = db.products ++ [p] ∧
       db'.categories = db.categories ∧ db'.reviews = db.reviews ∧ db'.users = db.users ∧
       p.seller_id = u.id ∧ p.is_active = true ∧ p.rating = 0 ∧ p.id = new_id) := by
  constructor
  · intro hall
    have hfc : firstActiveCategory db pc.category_id = none := by
      unfold firstActiveCategory
      have hnil : db.categories.filter (fun c => c.id == pc.category_id && c.is_active) = [] := by
        rw [List.filter_eq_nil_iff]
        intro c hc
        by_cases hid : c.id = pc.category_id
        · simp [hid, hall c hc hid]
        · simp [hid]
      rw [hnil]
      rfl
    constructor
    · simp [create_product_endpoint, get_current_seller, _hrole, create_product, hfc]
    · simp [finalDB, create_product_endpoint, get_current_seller, _hrole, create_product, hfc]
  · intro db' p h
    have hred : create_product_endpoint db (some u) pc new_id = create_product db u pc new_id := by
      simp [create_product_endpoint, get_current_seller, _hrole]
    rw [hred] at h
    unfold create_product at h
    cases hfc : firstActiveCategory db pc.category_id with
    | none => rw [hfc] at h; simp at h
    | some c =>
        rw [hfc] at h
        simp only at h
        simp only [Except.ok.injEq, Prod.mk.injEq] at h
        obtain ⟨hdb, hp⟩ := h
        subst hdb
        subst hp
        exact ⟨rfl, rfl, rfl, rfl, rfl, rfl, rfl, rfl⟩

/-- Witness for C9: against the store whose only categories are the active 1
and the soft-deleted 2, a payload naming category 2 is rejected with 400 and
nothing persists, while the payload naming category 1 appends exactly the
stamped product. -/
theorem create_product_category_gate_witness :
    (create_product_endpoint exDB (some seller7) badCategoryPayload 20 =
       .error ⟨400, "Category not found"⟩ ∧
     finalDB exDB (create_product_endpoint exDB (some seller7) badCategoryPayload 20) = exDB) ∧
    (dbWithCreated.products = exDB.products ++ [createdProduct] ∧
     createdProduct.seller_id = seller7.id ∧
     createdProduct.is_active = true ∧
     createdProduct.rating = 0) :=
  ⟨(create_product_category_gate exDB seller7 badCategoryPayload 20 rfl).1 (by decide),
   (fun hfacts => ⟨hfacts.1, hfacts.2.2.2.2.1, hfacts.2.2.2.2.2.1, hfacts.2.2.2.2.2.2.1⟩)
     ((create_product_category_gate exDB seller7 goodPayload 20 rfl).2 dbWithCreated createdProduct
       (by norm_num [create_product_endpoint, get_current_seller, create_product,
           firstActiveCategory, exDB, exProduct, exUsers, exCategories, seller7,
           goodPayload, createdProduct, dbWithCreated]))⟩

/-- C10: a successful update_product leaves the `id`, `seller_id`,
`rating` and `is_active` of every row exactly as before, and only the
payload-supplied catalog fields change: rows with a different id are wholly
untouched, a catalog field absent from `fields_set` keeps its old value on
every row, and on the addressed row a supplied field takes exactly the
payload value — so ownership can never be transferred and a product can
never be activated, deactivated or re-rated through update_product. -/
theorem update_product_frame (db db' : DB) (u : User) (pid : Nat)
    (pc : ProductCreate) (ret : Product)
    (h : update_product db u pid pc = .ok (db', ret)) :
    db'.products.length = db.products.length ∧
    (∀ i : Nat, (db'.products[i]?).map (fun p => (p.id, p.seller_id, p.rating, p.is_active))
       = (db.products[i]?).map (fun p => (p.id, p.seller_id, p.rating, p.is_active))) ∧
    db'.categories = db.categories ∧ db'.reviews = db.reviews ∧ db'.users = db.users ∧
    (∀ i : Nat, ∀ p p', db.products[i]? = some p → db'.products[i]? = some p' →
       (p.id ≠ pid → p' = p) ∧
       (ProductField.name ∉ pc.fields_set → p'.name = p.name) ∧
       (ProductField.description ∉ pc.fields_set → p'.description = p.description) ∧
       (ProductField.price ∉ pc.fields_set → p'.price = p.price) ∧
       (ProductField.stock ∉ pc.fields_set → p'.stock = p.stock) ∧
       (ProductField.category_id ∉ pc.fields_set → p'.category_id = p.category_id) ∧
       (p.id = pid →
         (ProductField.name ∈ pc.fields_set → p'.name = pc.name) ∧
         (ProductField.description ∈ pc.fields_set → p'.description = pc.description) ∧
         (ProductField.price ∈ pc.fields_set → p'.price = pc.price) ∧
         (ProductField.stock ∈ pc.fields_set → p'.stock = pc.stock) ∧
         (ProductField.category_id ∈ pc.fields_set → p'.category_id = pc.category_id))) := by
  unfold update_product at h
  cases hfp : firstActiveProduct db pid with
  | none => rw [hfp] at h; simp at h
  | some t =>
      rw [hfp] at h
      simp only at h
      by_cases hown : t.seller_id = u.id
      · rw [if_neg (by simp [hown])] at h
        cases hfc : firstActiveCategory db t.category_id with
        | none => rw [hfc] at h; simp at h
        | some c =>
            rw [hfc] at h
            cases hpk : getProductByPk
                { db with products := db.products.map (fun p =>
                    if p.id == pid then apply_update pc p else p) } pid with
            | none => rw [hpk] at h; simp at h
            | some refreshed =>
                rw [hpk] at h
                simp only [Except.ok.injEq, Prod.mk.injEq] at h
                obtain ⟨hdb, _⟩ := h
                subst hdb
                refine ⟨by simp, ?_, rfl, rfl, rfl, ?_⟩
                · intro i
                  simp only [List.getElem?_map]
                  cases hi : db.products[i]? with
                  | none => rfl
                  | some p =>
                      by_cases hid : p.id = pid
                      · simp [hid, apply_update]
                      · simp [hid]
                · intro i p p' hp hp'
                  rw [List.getElem?_map, hp] at hp'
                  have hfp2 : (if p.id == pid then apply_update pc p else p) = p' :=
                    Option.some.inj hp'
                  by_cases hid : p.id = pid
                  · have hap : p' = apply_update pc p := by rw [← hfp2]; simp [hid]
                    subst hap
                    refine ⟨fun hne => absurd hid hne, ?_, ?_, ?_, ?_, ?_,
                            fun _ => ⟨?_, ?_, ?_, ?_, ?_⟩⟩
                    · intro hnot; simp [apply_update, hnot]
                    · intro hnot; simp [apply_update, hnot]
                    · intro hnot; simp [apply_update, hnot]
                    · intro hnot; simp [apply_update, hnot]
                    · intro hnot; simp [apply_update, hnot]
                    · intro hmem; simp [apply_update, hmem]
                    · intro hmem; simp [apply_update, hmem]
                    · intro hmem; simp [apply_update, hmem]
                    · intro hmem; simp [apply_update, hmem]
                    · intro hmem; simp [apply_update, hmem]
                  · have hap : p' = p := by rw [← hfp2]; simp [hid]
                    subst hap
                    exact ⟨fun _ => rfl, fun _ => rfl, fun _ => rfl, fun _ => rfl,
                           fun _ => rfl, fun _ => rfl, fun hcon => absurd hcon hid⟩
      · simp [hown] at h

/-- Witness for C10: changing only the price of product 1 keeps id,
seller_id, rating and is_active of the stored row intact, keeps the
unsupplied name untouched, and sets the supplied price to the payload
value. -/
theorem update_product_frame_witness :
    dbAfterPriceChange.products.length = exDB.products.length ∧
    (dbAfterPriceChange.products[0]?).map (fun p => (p.id, p.seller_id, p.rating, p.is_active))
      = (exDB.products[0]?).map (fun p => (p.id, p.seller_id, p.rating, p.is_active)) ∧
    ({ exProduct with price := 150 } : Product).name = exProduct.name ∧
    ({ exProduct with price := 150 } : Product).price = priceOnlyPayload.price :=
  ⟨(update_product_frame exDB dbAfterPriceChange seller7 1 priceOnlyPayload
      { exProduct with price := 150 }
      (by norm_num [update_product, firstActiveProduct, firstActiveCategory, getProductByPk,
          apply_update, exDB, exProduct, exUsers, exCategories, seller7,
          priceOnlyPayload, dbAfterPriceChange] <;> decide)).1,
   (update_product_frame exDB dbAfterPriceChange seller7 1 priceOnlyPayload
      { exProduct with price := 150 }
      (by norm_num [update_product, firstActiveProduct, firstActiveCategory, getProductByPk,
          apply_update, exDB, exProduct, exUsers, exCategories, seller7,
          priceOnlyPayload, dbAfterPriceChange] <;> decide)).2.1 0,
   ((update_product_frame exDB dbAfterPriceChange seller7 1 priceOnlyPayload
      { exProduct with price := 150 }
      (by norm_num [update_product, firstActiveProduct, firstActiveCategory, getProductByPk,
          apply_update, exDB, exProduct, exUsers, exCategories, seller7,
          priceOnlyPayload, dbAfterPriceChange] <;> decide)).2.2.2.2.2 0 exProduct
      { exProduct with price := 150 } rfl rfl).2.1 (by decide),
   (((update_product_frame exDB dbAfterPriceChange seller7 1 priceOnlyPayload
      { exProduct with price := 150 }
      (by norm_num [update_product, firstActiveProduct, firstActiveCategory, getProductByPk,
          apply_update, exDB, exProduct, exUsers, exCategories, seller7,
          priceOnlyPayload, dbAfterPriceChange] <;> decide)).2.2.2.2.2 0 exProduct
      { exProduct with price := 150 } rfl rfl).2.2.2.2.2.2 rfl).2.2.1 (by decide)⟩

/-- Witness for C1: buyer 2 posts a grade-4 review on the unreviewed product
1; the stored rating 4 equals the mean over the one active review. -/
theorem review_mutation_restores_rating_witness :
    (4 : Rat) = specRating dbAfterReview 1 :=
  review_mutation_restores_rating exDB dbAfterReview buyer2 exReviewCreate 10 0 exReview
    (Or.inl (by norm_num [create_review, firstActiveProduct, update_product_rating,
        getProductByPk, avgActiveGrade, exDB, exProduct, exUsers, exCategories,
        buyer2, exReviewCreate, exReview, dbAfterReview]))
    { exProduct with rating := 4 }
    (by simp [dbAfterReview, exDB])
    rfl

end Ecommerce
